import Mathlib

/-!
Shallow embedding of the vue-render-tracker render pipeline.

Embedded modules:
* `types.ts`            — `IVueScanOptions`, `IRenderChange`, `IRenderInfo`
* `VueScanStore.ts`     — options accessors and the render-info map
* `Reporter.ts`         — log / sound side effects, modelled as an effect list
* `OverlayManager.ts`   — shape list, frame scheduling flag, fade animation step
* `VueScanInstrumentation.ts` — pause flag, `handleRender` dispatch, the mixin hooks
* `VueScanPlugin.ts`    — construction-time merge, `updateOptions`, `highlightRect`

Side effects (console lines, audio, canvas draws, timers) are reified as
values of `RenderEffect`/`DrawCall`; the JS exception thrown by
`new AudioContext()` when no audio subsystem exists is reified as
`Except.error`.  Time (`Date.now()`) is an explicit `Nat` argument.
-/

/-- `IVueScanOptions` (types.ts): the five boolean switches. -/
structure VueScanOptions where
  enabled : Bool
  log : Bool
  playSound : Bool
  showOverlay : Bool
  trackUpdates : Bool
deriving Repr, DecidableEq

/-- `Partial<IVueScanOptions>`: a field absent from the TS object literal is `none`. -/
structure PartialOptions where
  enabled : Option Bool := none
  log : Option Bool := none
  playSound : Option Bool := none
  showOverlay : Option Bool := none
  trackUpdates : Option Bool := none
deriving Repr, DecidableEq

/-- `defaultOptions` of VueScanPlugin.ts. -/
def defaultOptions : VueScanOptions :=
  { enabled := true, log := true, playSound := false, showOverlay := false, trackUpdates := true }

/-- The JS object spread `\x7b ...cur, ...p \x7d`: a field present in `p`
overrides (even with `false`), an absent field keeps the current value. -/
def mergeOptions (cur : VueScanOptions) (p : PartialOptions) : VueScanOptions :=
  { enabled := p.enabled.getD cur.enabled
    log := p.log.getD cur.log
    playSound := p.playSound.getD cur.playSound
    showOverlay := p.showOverlay.getD cur.showOverlay
    trackUpdates := p.trackUpdates.getD cur.trackUpdates }

/-- `IRenderChange` (types.ts); the unknown-typed values are modelled as strings,
which is immaterial because the change list is always the empty stub. -/
structure RenderChange where
  name : String
  oldValue : Option String := none
  newValue : Option String := none
deriving Repr, DecidableEq

/-- `IRenderInfo` (types.ts). `timestamp` is `Date.now()` in ms. -/
structure RenderInfo where
  componentName : String
  changes : List RenderChange
  updateCount : Nat
  timestamp : Nat
deriving Repr, DecidableEq

/-- `VueScanInstrumentation.getChangesStub`: always the empty list. -/
def getChangesStub : List RenderChange := []

/-- JS `Map.prototype.set` on an association list with unique keys:
an existing key is updated in place, a new key is appended at the end. -/
def mapSet : List (String × RenderInfo) → String → RenderInfo → List (String × RenderInfo)
  | [], k, v => [(k, v)]
  | kv :: t, k, v => if kv.1 = k then (k, v) :: t else kv :: mapSet t k v

/-- JS `Map.prototype.get`. -/
def mapGet (m : List (String × RenderInfo)) (k : String) : Option RenderInfo :=
  (m.find? (fun kv => kv.1 = k)).map (fun kv => kv.2)

/-- `VueScanStore` (VueScanStore.ts): options plus the `_reportData` map. -/
structure VueScanStore where
  _options : VueScanOptions
  _reportData : List (String × RenderInfo) := []
deriving Repr, DecidableEq

/-- The `options` getter. -/
def VueScanStore.optionsGet (s : VueScanStore) : VueScanOptions := s._options

/-- The `options` setter: `this._options = \x7b ...this._options, ...newOpts \x7d`. -/
def VueScanStore.optionsSet (s : VueScanStore) (newOpts : PartialOptions) : VueScanStore :=
  { s with _options := mergeOptions s._options newOpts }

/-- `setRenderInfo`: unconditional upsert. -/
def VueScanStore.setRenderInfo (s : VueScanStore) (key : String) (info : RenderInfo) :
    VueScanStore :=
  { s with _reportData := mapSet s._reportData key info }

/-- `getRenderInfo`. -/
def VueScanStore.getRenderInfo (s : VueScanStore) (key : String) : Option RenderInfo :=
  mapGet s._reportData key

/-- `getAllReports`: `Array.from(this._reportData.entries())`. -/
def VueScanStore.getAllReports (s : VueScanStore) : List (String × RenderInfo) :=
  s._reportData

/-- Observable side effects of the render pipeline, in emission order. -/
inductive RenderEffect
  /-- `console.log('[VueScan] Updated:', ...)` in `Reporter.logRender`. -/
  | logLine (info : RenderInfo)
  /-- the 440 Hz oscillator was started in `playSoundIfNeeded`. -/
  | soundStarted
  /-- the `setTimeout` stopping the oscillator after `ms` milliseconds. -/
  | soundStopScheduled (ms : Nat)
  /-- `OverlayManager.clear()` invoked from the dispatch path. -/
  | overlayCleared
  /-- `OverlayManager.drawRect` invoked with the given geometry. -/
  | overlayDrew (x y width height : Rat)
  /-- the `setTimeout(() => overlay.clear(), ms)` auto-clear timer. -/
  | overlayClearScheduled (ms : Nat)
deriving Repr, DecidableEq

/-- The exception thrown by `new AudioContext()` when the host has no
audio subsystem (e.g. `AudioContext` is undefined). -/
inductive AudioFailure
  | contextUnavailable
deriving Repr, DecidableEq

/-- `Reporter` (Reporter.ts): an immutable snapshot of the options taken at
construction time; it is never mutated, only replaced wholesale. -/
structure Reporter where
  options : VueScanOptions
deriving Repr, DecidableEq

/-- `Reporter.logRender`: no-op unless `options.log`. -/
def Reporter.logRender (r : Reporter) (info : RenderInfo) : List RenderEffect :=
  if !r.options.log then [] else [RenderEffect.logLine info]

/-- `Reporter.playSoundIfNeeded`: no-op unless `options.playSound`; otherwise
`new AudioContext()` is evaluated with NO try/catch around it, so when the
audio subsystem is unavailable the exception propagates to the caller. -/
def Reporter.playSoundIfNeeded (r : Reporter) (audioOk : Bool) :
    Except AudioFailure (List RenderEffect) :=
  if !r.options.playSound then Except.ok []
  else if audioOk then
    Except.ok [RenderEffect.soundStarted, RenderEffect.soundStopScheduled 50]
  else Except.error AudioFailure.contextUnavailable

/-- `IOverlayShape` (OverlayManager.ts). Geometry is ℚ (JS numbers used only
as opaque coordinates here); times are `Nat` milliseconds. -/
structure OverlayShape where
  x : Rat
  y : Rat
  width : Rat
  height : Rat
  color : String
  borderColor : Option String := none
  borderWidth : Option Rat := none
  fadeDuration : Nat
  startTime : Nat
deriving Repr, DecidableEq

/-- `OverlayManager` state. `ctxAvailable` models `this.ctx !== null`;
`animationFrameId` is `true` exactly when a frame callback is scheduled
(the JS field holds a non-null id); `canvasClean` is `true` when the
drawing surface currently shows nothing. -/
structure OverlayManager where
  ctxAvailable : Bool
  shapes : List OverlayShape := []
  animationFrameId : Bool := false
  canvasClean : Bool := true
deriving Repr, DecidableEq

/-- The constructor: fresh canvas, no shapes, no scheduled frame. -/
def OverlayManager.init (ctxAvailable : Bool) : OverlayManager :=
  { ctxAvailable }

/-- `OverlayManager.clear`: drop all shapes, cancel a pending frame callback,
then (only if a 2D context exists) wipe the surface. -/
def OverlayManager.clear (o : OverlayManager) : OverlayManager :=
  let o1 : OverlayManager := { o with shapes := [], animationFrameId := false }
  if o1.ctxAvailable then { o1 with canvasClean := true } else o1

/-- The parameter object of `drawRect`; omitted fields are `none` and the
source's default parameter values apply. -/
structure DrawRectParams where
  x : Rat
  y : Rat
  width : Rat
  height : Rat
  color : Option String := none
  borderColor : Option String := none
  borderWidth : Option Rat := none
  fadeDuration : Option Nat := none
deriving Repr, DecidableEq

/-- `OverlayManager.drawRect`: push a shape stamped with the current time and
start the animation loop when it is not already running. -/
def OverlayManager.drawRect (o : OverlayManager) (p : DrawRectParams) (now : Nat) :
    OverlayManager :=
  let shape : OverlayShape :=
    { x := p.x, y := p.y, width := p.width, height := p.height
      color := p.color.getD "rgba(142,97,227,0.5)"
      borderColor := some (p.borderColor.getD "rgba(142,97,227,1)")
      borderWidth := some (p.borderWidth.getD 1)
      fadeDuration := p.fadeDuration.getD 500
      startTime := now }
  let o1 : OverlayManager := { o with shapes := o.shapes ++ [shape] }
  if o1.animationFrameId then o1 else { o1 with animationFrameId := true }

/-- One draw performed by a frame of the animation loop. -/
structure DrawCall where
  shape : OverlayShape
  alpha : Rat
deriving Repr, DecidableEq

/-- The body of the `renderLoop` filter for one shape at time `now`:
`none` when `elapsed >= fadeDuration` (shape removed, not drawn), otherwise
the draw at opacity `1 - elapsed / fadeDuration`. -/
def processShape (now : Nat) (s : OverlayShape) : Option DrawCall :=
  let elapsed : Int := (now : Int) - (s.startTime : Int)
  if (s.fadeDuration : Int) ≤ elapsed then none
  else some { shape := s, alpha := 1 - (elapsed : Rat) / (s.fadeDuration : Rat) }

/-- One pass of `OverlayManager.renderLoop` at time `now`: reschedule first,
bail out without a context, otherwise wipe the surface, draw/drop each shape,
and cancel the scheduling when no shape remains.  Returns the new state and
the draws performed this frame. -/
def OverlayManager.renderLoop (o : OverlayManager) (now : Nat) :
    OverlayManager × List DrawCall :=
  let o1 : OverlayManager := { o with animationFrameId := true }
  if !o1.ctxAvailable then (o1, [])
  else
    let draws := o1.shapes.filterMap (processShape now)
    let kept := o1.shapes.filter (fun s => (processShape now s).isSome)
    let o2 : OverlayManager := { o1 with shapes := kept, canvasClean := draws.isEmpty }
    if kept.isEmpty then ({ o2 with animationFrameId := false }, draws)
    else (o2, draws)

/-- A `DOMRect` as consumed by `handleRender`. -/
structure Rect where
  left : Rat
  top : Rat
  width : Rat
  height : Rat
deriving Repr, DecidableEq

/-- The joint state of `VueScanPlugin` and its `VueScanInstrumentation`.
`store` and `overlay` are shared by reference between the two objects in the
source, so they appear once.  `pluginReporter` is the plugin's own `reporter`
field (reassigned by `updateOptions`); `instrReporter` is the reporter
reference captured by `VueScanInstrumentation` at construction, which is
never reassigned afterwards. -/
structure PluginState where
  store : VueScanStore
  pluginReporter : Reporter
  instrReporter : Reporter
  paused : Bool
  overlay : Option OverlayManager
deriving Repr, DecidableEq

/-- The `VueScanPlugin` constructor: merge over defaults, build the store and
reporter, create the overlay iff `enabled && showOverlay`, and hand the same
store/reporter/overlay to the instrumentation.  `ctxOk` models whether the
freshly created canvas yields a 2D context. -/
def mkPlugin (options : PartialOptions) (ctxOk : Bool) : PluginState :=
  let merged := mergeOptions defaultOptions options
  let store : VueScanStore := { _options := merged }
  let reporter : Reporter := { options := store.optionsGet }
  let overlay : Option OverlayManager :=
    if merged.enabled && merged.showOverlay then some (OverlayManager.init ctxOk) else none
  { store := store, pluginReporter := reporter, instrReporter := reporter,
    paused := false, overlay := overlay }

/-- `VueScanInstrumentation.setPaused`. -/
def setPaused (p : PluginState) (b : Bool) : PluginState :=
  { p with paused := b }

/-- `VueScanPlugin.updateOptions`: merge into the store through the setter and
rebuild the PLUGIN's reporter from the merged options.  The instrumentation's
reporter reference is untouched — the source never reassigns it. -/
def updateOptions (p : PluginState) (opts : PartialOptions) : PluginState :=
  let store := p.store.optionsSet opts
  { p with store := store, pluginReporter := { options := store.optionsGet } }

/-- `VueScanInstrumentation.handleRender` observed at plugin level: the new
state, the effect trace, and the exception (if any) escaping the call.
When `playSoundIfNeeded` throws, the store write and the log have already
happened and the overlay block is skipped. -/
def fireRender (p : PluginState) (name : String) (count : Nat) (rect : Option Rect)
    (now : Nat) (audioOk : Bool) :
    PluginState × List RenderEffect × Option AudioFailure :=
  if p.paused then (p, [], none)
  else if !p.store.optionsGet.trackUpdates then (p, [], none)
  else
    let info : RenderInfo :=
      { componentName := name, changes := getChangesStub, updateCount := count, timestamp := now }
    let store := p.store.setRenderInfo name info
    let logEffs := p.instrReporter.logRender info
    match p.instrReporter.playSoundIfNeeded audioOk with
    | Except.error e => ({ p with store := store }, logEffs, some e)
    | Except.ok soundEffs =>
      match p.overlay, rect with
      | some ov, some r =>
        let ov2 := (ov.clear).drawRect
          { x := r.left, y := r.top, width := r.width, height := r.height } now
        ({ p with store := store, overlay := some ov2 },
          logEffs ++ soundEffs ++
            [RenderEffect.overlayCleared,
             RenderEffect.overlayDrew r.left r.top r.width r.height,
             RenderEffect.overlayClearScheduled 50], none)
      | _, _ => ({ p with store := store }, logEffs ++ soundEffs, none)

/-- `VueScanPlugin.highlightRect`: no-op without an overlay; otherwise clear
then draw. -/
def highlightRect (p : PluginState) (x y w h : Rat) (now : Nat) : PluginState :=
  match p.overlay with
  | none => p
  | some ov =>
      { p with overlay := some ((ov.clear).drawRect
          { x := x, y := y, width := w, height := h } now) }

/-- The per-instance state injected by the global mixin, together with the
identity sources read by the hooks. -/
structure ComponentInstance where
  vueScanUpdateCount : Nat
  declaredName : Option String
  inferredName : Option String
  el : Option Rect
deriving Repr, DecidableEq

/-- The mixin's `data()` hook: the injected counter starts at 0. -/
def ComponentInstance.create (declaredName inferredName : Option String) (el : Option Rect) :
    ComponentInstance :=
  { vueScanUpdateCount := 0, declaredName := declaredName,
    inferredName := inferredName, el := el }

/-- JS truthiness for the `||` chain: the empty string is falsy. -/
def jsTruthy (o : Option String) : Option String :=
  o.bind (fun s => if s = "" then none else some s)

/-- `$options?.name || $options?.__name || 'UnknownVueComponent'`. -/
def resolveName (c : ComponentInstance) : String :=
  ((jsTruthy c.declaredName).orElse (fun _ => jsTruthy c.inferredName)).getD
    "UnknownVueComponent"

/-- The `mounted` hook: report with the literal count 0 and the root
geometry when the root is a real element. -/
def mountEvent (c : ComponentInstance) (p : PluginState) (now : Nat) (audioOk : Bool) :
    ComponentInstance × PluginState × List RenderEffect × Option AudioFailure :=
  (c, fireRender p (resolveName c) 0 c.el now audioOk)

/-- One update cycle: `beforeUpdate` increments the injected counter, then
`updated` reports with the incremented counter. -/
def updateEvent (c : ComponentInstance) (p : PluginState) (now : Nat) (audioOk : Bool) :
    ComponentInstance × PluginState × List RenderEffect × Option AudioFailure :=
  let c1 : ComponentInstance := { c with vueScanUpdateCount := c.vueScanUpdateCount + 1 }
  (c1, fireRender p (resolveName c1) c1.vueScanUpdateCount c1.el now audioOk)

/-- `n` consecutive update cycles on the same instance; `times i` and
`sounds i` give the timestamp and audio availability of the i-th cycle. -/
def runUpdates : Nat → ComponentInstance → PluginState → (Nat → Nat) → (Nat → Bool) →
    ComponentInstance × PluginState
  | 0, c, p, _, _ => (c, p)
  | n + 1, c, p, times, sounds =>
    let r := updateEvent c p (times 0) (sounds 0)
    runUpdates n r.1 r.2.1 (fun i => times (i + 1)) (fun i => sounds (i + 1))

/-! ## Helper lemmas -/

theorem mapGet_mapSet_self (m : List (String × RenderInfo)) (k : String) (v : RenderInfo) :
    mapGet (mapSet m k v) k = some v := by
  induction m with
  | nil => simp [mapSet, mapGet, List.find?]
  | cons kv t ih =>
    by_cases h : kv.1 = k
    · simp [mapSet, mapGet, h, List.find?]
    · simpa [mapSet, mapGet, h, List.find?] using ih

theorem VueScanStore.getRenderInfo_setRenderInfo_self (s : VueScanStore) (k : String)
    (info : RenderInfo) : (s.setRenderInfo k info).getRenderInfo k = some info :=
  mapGet_mapSet_self s._reportData k info

/-- `handleRender` never touches the pause flag, the options, or the
instrumentation's reporter reference. -/
theorem fireRender_preserves (p : PluginState) (name : String) (count : Nat)
    (rect : Option Rect) (now : Nat) (audioOk : Bool) :
    (fireRender p name count rect now audioOk).1.paused = p.paused
    ∧ (fireRender p name count rect now audioOk).1.store._options = p.store._options
    ∧ (fireRender p name count rect now audioOk).1.instrReporter = p.instrReporter
    ∧ (fireRender p name count rect now audioOk).1.pluginReporter = p.pluginReporter := by
  unfold fireRender
  cases hp : p.paused
  · cases ht : p.store.optionsGet.trackUpdates
    · simp [hp, ht]
    · cases hs : p.instrReporter.playSoundIfNeeded audioOk
      · simp [hp, ht, hs, VueScanStore.setRenderInfo]
      · cases ho : p.overlay <;> cases hr : rect <;>
          simp [hp, ht, hs, ho, hr, VueScanStore.setRenderInfo]
  · simp [hp]

/-- A paused pipeline ignores the event entirely. -/
theorem fireRender_paused (p : PluginState) (name : String) (count : Nat)
    (rect : Option Rect) (now : Nat) (audioOk : Bool) (hp : p.paused = true) :
    fireRender p name count rect now audioOk = (p, [], none) := by
  unfold fireRender; simp [hp]

/-- With `trackUpdates` off the pipeline ignores the event entirely. -/
theorem fireRender_untracked (p : PluginState) (name : String) (count : Nat)
    (rect : Option Rect) (now : Nat) (audioOk : Bool)
    (ht : p.store.optionsGet.trackUpdates = false) :
    fireRender p name count rect now audioOk = (p, [], none) := by
  unfold fireRender; cases hp : p.paused <;> simp [hp, ht]

/-- Behavior of an active (unpaused, tracking) dispatch: the record is
stored, the log line and sound appear according to the instrumentation
reporter's option snapshot, the overlay is drawn exactly when both an
overlay and geometry are present. -/
theorem fireRender_active_spec (p : PluginState) (name : String) (count : Nat)
    (rect : Option Rect) (now : Nat) (audioOk : Bool)
    (hp : p.paused = false) (ht : p.store.optionsGet.trackUpdates = true) :
    (fireRender p name count rect now audioOk).1.store
      = p.store.setRenderInfo name
          { componentName := name, changes := getChangesStub, updateCount := count,
            timestamp := now }
    ∧ (p.instrReporter.options.log = true →
        RenderEffect.logLine
            { componentName := name, changes := getChangesStub, updateCount := count,
              timestamp := now }
          ∈ (fireRender p name count rect now audioOk).2.1)
    ∧ (p.instrReporter.options.log = false →
        ∀ i, RenderEffect.logLine i ∉ (fireRender p name count rect now audioOk).2.1)
    ∧ (p.instrReporter.options.playSound = true → audioOk = true →
        RenderEffect.soundStarted ∈ (fireRender p name count rect now audioOk).2.1)
    ∧ (p.instrReporter.options.playSound = false →
        RenderEffect.soundStarted ∉ (fireRender p name count rect now audioOk).2.1)
    ∧ (∀ ov r, p.overlay = some ov → rect = some r → audioOk = true →
        RenderEffect.overlayDrew r.left r.top r.width r.height
          ∈ (fireRender p name count rect now audioOk).2.1)
    ∧ (rect = none →
        (∀ x y w h, RenderEffect.overlayDrew x y w h
            ∉ (fireRender p name count rect now audioOk).2.1)
          ∧ RenderEffect.overlayCleared ∉ (fireRender p name count rect now audioOk).2.1) := by
  unfold fireRender
  cases hlog : p.instrReporter.options.log <;>
    cases hsnd : p.instrReporter.options.playSound <;>
      cases ha : audioOk <;>
        cases ho : p.overlay <;> cases hr : rect <;>
          simp [hp, ht, hlog, hsnd, ha, ho, hr, Reporter.logRender,
            Reporter.playSoundIfNeeded]

/-! ## Overlay lemmas -/

/-- With a context available, one animation frame keeps exactly the
unexpired shapes and draws exactly what `processShape` yields. -/
theorem renderLoop_components (o : OverlayManager) (now : Nat)
    (hctx : o.ctxAvailable = true) :
    (o.renderLoop now).2 = o.shapes.filterMap (processShape now)
    ∧ (o.renderLoop now).1.shapes
        = o.shapes.filter (fun s => (processShape now s).isSome) := by
  unfold OverlayManager.renderLoop
  by_cases hk : (o.shapes.filter (fun s => (processShape now s).isSome)).isEmpty <;>
    simp [hctx, hk]

/-- A draw produced by `processShape` is a draw of that very shape. -/
theorem processShape_shape_eq (now : Nat) (s : OverlayShape) (d : DrawCall)
    (h : processShape now s = some d) : d.shape = s := by
  by_cases hc : (s.fadeDuration : Int) ≤ (now : Int) - (s.startTime : Int) <;>
    simp [processShape, hc] at h
  rw [← h]

/-! ## Claims -/

/-- C2: `updateOptions` is claimed to make the Reporter consulted by
subsequent render dispatches follow the merged options.  The code rebuilds
only `VueScanPlugin.reporter`; `VueScanInstrumentation` keeps the reporter
captured at construction, so a dispatch after `updateOptions(\x7b log: true \x7d)`
on a plugin constructed with `log: false` emits no effect at all, even
though the merged options (and the plugin-side rebuilt reporter) would log. -/
theorem C2_updateOptions_stale_dispatch_reporter :
    (updateOptions (mkPlugin { log := some false } false)
        { log := some true }).store.optionsGet.log = true
    ∧ (updateOptions (mkPlugin { log := some false } false)
        { log := some true }).pluginReporter.options.log = true
    ∧ (updateOptions (mkPlugin { log := some false } false)
        { log := some true }).instrReporter.options.log = false
    ∧ (fireRender
        (updateOptions (mkPlugin { log := some false } false) { log := some true })
        "Comp" 0 none 7 true).2.1 = []
    ∧ Reporter.logRender
        (updateOptions (mkPlugin { log := some false } false)
          { log := some true }).pluginReporter
        { componentName := "Comp", changes := [], updateCount := 0, timestamp := 7 }
        = [RenderEffect.logLine
            { componentName := "Comp", changes := [], updateCount := 0, timestamp := 7 }] := by
  refine ⟨rfl, rfl, rfl, ?_, rfl⟩
  rfl

/-- C5: the store's options setter and `updateOptions` are field-wise shallow
merges: every field present in the partial update overrides the current value
(even with `false`), every absent field is preserved. -/
theorem C5_options_shallow_merge (s : VueScanStore) (p : PluginState) (u : PartialOptions) :
    ((s.optionsSet u)._options.enabled = u.enabled.getD s._options.enabled
      ∧ (s.optionsSet u)._options.log = u.log.getD s._options.log
      ∧ (s.optionsSet u)._options.playSound = u.playSound.getD s._options.playSound
      ∧ (s.optionsSet u)._options.showOverlay = u.showOverlay.getD s._options.showOverlay
      ∧ (s.optionsSet u)._options.trackUpdates = u.trackUpdates.getD s._options.trackUpdates)
    ∧ (updateOptions p u).store._options = mergeOptions p.store._options u
    ∧ mergeOptions
        { enabled := true, log := true, playSound := false, showOverlay := false,
          trackUpdates := true }
        { playSound := some true }
      = { enabled := true, log := true, playSound := true, showOverlay := false,
          trackUpdates := true } :=
  ⟨⟨rfl, rfl, rfl, rfl, rfl⟩, rfl, rfl⟩

/-- C6: `clear()` immediately empties the shape list, cancels a pending frame
callback, and (with a drawing context) wipes the surface; it is idempotent,
and only a later `drawRect` schedules a frame again. -/
theorem C6_clear_resets_and_idempotent (o : OverlayManager) (prms : DrawRectParams)
    (now : Nat) (hctx : o.ctxAvailable = true) :
    (o.clear).shapes = []
    ∧ (o.clear).animationFrameId = false
    ∧ (o.clear).canvasClean = true
    ∧ (o.clear).clear = o.clear
    ∧ ((o.clear).drawRect prms now).animationFrameId = true := by
  refine ⟨?_, ?_, ?_, ?_, ?_⟩ <;>
    simp [OverlayManager.clear, OverlayManager.drawRect, hctx]

/-- C8: the claim says `playSoundIfNeeded` never propagates an error.  It is
a no-op when `playSound` is off, but when `playSound` is on and the audio
subsystem is unavailable the code constructs `new AudioContext()` with no
try/catch, so the failure escapes into the render pipeline: `handleRender`
on such a plugin reports the escaped exception. -/
theorem C8_playSound_failure_propagates :
    Reporter.playSoundIfNeeded
        { options := { defaultOptions with playSound := true } } false
      = Except.error AudioFailure.contextUnavailable
    ∧ Reporter.playSoundIfNeeded { options := defaultOptions } false = Except.ok []
    ∧ (fireRender (mkPlugin { playSound := some true } false) "C" 0 none 3 false).2.2
      = some AudioFailure.contextUnavailable :=
  ⟨rfl, rfl, rfl⟩

/-- C10: the overlay exists iff `enabled && showOverlay` held in the merged
constructor options; `updateOptions` never creates or destroys it; and on a
plugin constructed without an overlay, `highlightRect` is a no-op. -/
theorem C10_overlay_fixed_at_construction (opts u : PartialOptions) (ctxOk : Bool)
    (p : PluginState) (x y w h : Rat) (now : Nat) (hno : p.overlay = none) :
    ((mkPlugin opts ctxOk).overlay.isSome
      = ((mergeOptions defaultOptions opts).enabled
          && (mergeOptions defaultOptions opts).showOverlay))
    ∧ (updateOptions p u).overlay = p.overlay
    ∧ highlightRect p x y w h now = p := by
  refine ⟨?_, rfl, ?_⟩
  · cases hc : ((mergeOptions defaultOptions opts).enabled
        && (mergeOptions defaultOptions opts).showOverlay) <;>
      simp [mkPlugin, hc]
  · simp [highlightRect, hno]

/-- C3: after `setPaused(true)` every render event leaves the whole state
unchanged and produces no effect; after `setPaused(false)` the next event is
processed normally: stored, reported per the reporter's options, and drawn
when an overlay and geometry are available. -/
theorem C3_pause_blocks_and_resume_restores (p : PluginState) (name : String)
    (count : Nat) (rect : Option Rect) (now now2 : Nat) (aOk : Bool)
    (ht : p.store.optionsGet.trackUpdates = true) :
    fireRender (setPaused p true) name count rect now aOk = (setPaused p true, [], none)
    ∧ (fireRender (setPaused (setPaused p true) false) name count rect
          now2 true).1.store.getRenderInfo name
        = some { componentName := name, changes := getChangesStub, updateCount := count,
                 timestamp := now2 }
    ∧ (p.instrReporter.options.log = true →
        RenderEffect.logLine
            { componentName := name, changes := getChangesStub, updateCount := count,
              timestamp := now2 }
          ∈ (fireRender (setPaused (setPaused p true) false) name count rect now2 true).2.1)
    ∧ (p.instrReporter.options.playSound = true →
        RenderEffect.soundStarted
          ∈ (fireRender (setPaused (setPaused p true) false) name count rect now2 true).2.1)
    ∧ (∀ ov r, p.overlay = some ov → rect = some r →
        RenderEffect.overlayDrew r.left r.top r.width r.height
          ∈ (fireRender (setPaused (setPaused p true) false) name count rect now2 true).2.1) := by
  obtain ⟨h1, h2, -, h4, -, h6, -⟩ :=
    fireRender_active_spec (setPaused (setPaused p true) false) name count rect now2 true
      rfl ht
  refine ⟨fireRender_paused _ _ _ _ _ _ rfl, ?_, h2, fun hs => h4 hs rfl, ?_⟩
  · rw [h1]; exact VueScanStore.getRenderInfo_setRenderInfo_self _ _ _
  · exact fun ov r hov hr => h6 ov r hov hr rfl

/-- C7: a render event without geometry still stores the record and still
reports it (log and sound per the reporter's option snapshot), but no
overlay call happens; the resulting store is the same as it would have been
with geometry. -/
theorem C7_no_geometry_still_stored_and_reported (p : PluginState) (name : String)
    (count : Nat) (now : Nat) (aOk : Bool) (r : Rect)
    (hp : p.paused = false) (ht : p.store.optionsGet.trackUpdates = true) :
    (fireRender p name count none now aOk).1.store.getRenderInfo name
        = some { componentName := name, changes := getChangesStub, updateCount := count,
                 timestamp := now }
    ∧ (fireRender p name count none now aOk).1.store
        = (fireRender p name count (some r) now aOk).1.store
    ∧ (p.instrReporter.options.log = true →
        RenderEffect.logLine
            { componentName := name, changes := getChangesStub, updateCount := count,
              timestamp := now }
          ∈ (fireRender p name count none now aOk).2.1)
    ∧ (p.instrReporter.options.playSound = true → aOk = true →
        RenderEffect.soundStarted ∈ (fireRender p name count none now aOk).2.1)
    ∧ (∀ x y w h, RenderEffect.overlayDrew x y w h
        ∉ (fireRender p name count none now aOk).2.1)
    ∧ RenderEffect.overlayCleared ∉ (fireRender p name count none now aOk).2.1 := by
  obtain ⟨h1, h2, -, h4, -, -, h7⟩ :=
    fireRender_active_spec p name count none now aOk hp ht
  obtain ⟨g1, -, -, -, -, -, -⟩ :=
    fireRender_active_spec p name count (some r) now aOk hp ht
  obtain ⟨h7a, h7b⟩ := h7 rfl
  refine ⟨?_, ?_, h2, h4, h7a, h7b⟩
  · rw [h1]; exact VueScanStore.getRenderInfo_setRenderInfo_self _ _ _
  · rw [h1, g1]

/-- C9: while `trackUpdates` is off a render event has no effect at all; the
flag is read from the store's current options at each event, so after
`updateOptions` re-enables it the next event is stored and reported again. -/
theorem C9_trackUpdates_gates_each_event (p : PluginState) (name : String) (count : Nat)
    (rect : Option Rect) (now now2 : Nat) (aOk : Bool)
    (hoff : p.store.optionsGet.trackUpdates = false) (hp : p.paused = false) :
    fireRender p name count rect now aOk = (p, [], none)
    ∧ (updateOptions p { trackUpdates := some true }).store.optionsGet.trackUpdates = true
    ∧ (fireRender (updateOptions p { trackUpdates := some true }) name count rect
          now2 true).1.store.getRenderInfo name
        = some { componentName := name, changes := getChangesStub, updateCount := count,
                 timestamp := now2 }
    ∧ (p.instrReporter.options.log = true →
        RenderEffect.logLine
            { componentName := name, changes := getChangesStub, updateCount := count,
              timestamp := now2 }
          ∈ (fireRender (updateOptions p { trackUpdates := some true }) name count rect
              now2 true).2.1) := by
  obtain ⟨h1, h2, -, -, -, -, -⟩ :=
    fireRender_active_spec (updateOptions p { trackUpdates := some true }) name count rect
      now2 true hp rfl
  refine ⟨fireRender_untracked _ _ _ _ _ _ hoff, rfl, ?_, h2⟩
  rw [h1]; exact VueScanStore.getRenderInfo_setRenderInfo_self _ _ _

/-- Invariant of a run of update cycles on one instance while the pipeline is
active: the injected counter advances by one per cycle, the pause flag and
options are untouched, and (once at least one cycle ran) the stored record
for the instance's identity carries the final counter value. -/
theorem runUpdates_spec (n : Nat) (c : ComponentInstance) (p : PluginState)
    (times : Nat → Nat) (sounds : Nat → Bool)
    (hp : p.paused = false) (ht : p.store.optionsGet.trackUpdates = true) :
    (runUpdates n c p times sounds).1.vueScanUpdateCount = c.vueScanUpdateCount + n
    ∧ (runUpdates n c p times sounds).2.paused = false
    ∧ (runUpdates n c p times sounds).2.store._options = p.store._options
    ∧ (0 < n →
        ((runUpdates n c p times sounds).2.store.getRenderInfo (resolveName c)).map
            (fun r => (r.componentName, r.updateCount))
          = some (resolveName c, c.vueScanUpdateCount + n)) := by
  induction n generalizing c p times sounds with
  | zero => exact ⟨rfl, hp, rfl, fun h => absurd h (by omega)⟩
  | succ n ih =>
    have hstep : runUpdates (n + 1) c p times sounds
        = runUpdates n { c with vueScanUpdateCount := c.vueScanUpdateCount + 1 }
            (fireRender p
              (resolveName { c with vueScanUpdateCount := c.vueScanUpdateCount + 1 })
              (c.vueScanUpdateCount + 1) c.el (times 0) (sounds 0)).1
            (fun i => times (i + 1)) (fun i => sounds (i + 1)) := rfl
    have hname : resolveName { c with vueScanUpdateCount := c.vueScanUpdateCount + 1 }
        = resolveName c := rfl
    have hpres := fireRender_preserves p
      (resolveName { c with vueScanUpdateCount := c.vueScanUpdateCount + 1 })
      (c.vueScanUpdateCount + 1) c.el (times 0) (sounds 0)
    have hact := fireRender_active_spec p
      (resolveName { c with vueScanUpdateCount := c.vueScanUpdateCount + 1 })
      (c.vueScanUpdateCount + 1) c.el (times 0) (sounds 0) hp ht
    have hp1 : (fireRender p
        (resolveName { c with vueScanUpdateCount := c.vueScanUpdateCount + 1 })
        (c.vueScanUpdateCount + 1) c.el (times 0) (sounds 0)).1.paused = false := by
      rw [hpres.1]; exact hp
    have ht1 : (fireRender p
        (resolveName { c with vueScanUpdateCount := c.vueScanUpdateCount + 1 })
        (c.vueScanUpdateCount + 1) c.el (times 0) (sounds 0)).1.store.optionsGet.trackUpdates
        = true := by
      show (fireRender p _ _ _ _ _).1.store._options.trackUpdates = true
      rw [hpres.2.1]; exact ht
    obtain ⟨ih1, ih2, ih3, ih4⟩ := ih
      { c with vueScanUpdateCount := c.vueScanUpdateCount + 1 }
      ((fireRender p
          (resolveName { c with vueScanUpdateCount := c.vueScanUpdateCount + 1 })
          (c.vueScanUpdateCount + 1) c.el (times 0) (sounds 0)).1)
      (fun i => times (i + 1)) (fun i => sounds (i + 1)) hp1 ht1
    refine ⟨?_, ?_, ?_, ?_⟩
    · rw [hstep, ih1]
      show c.vueScanUpdateCount + 1 + n = c.vueScanUpdateCount + (n + 1)
      omega
    · rw [hstep]; exact ih2
    · rw [hstep]; exact ih3.trans hpres.2.1
    · intro h
      rw [hstep]
      rcases Nat.eq_zero_or_pos n with hn | hn
      · subst hn
        show ((fireRender p
            (resolveName { c with vueScanUpdateCount := c.vueScanUpdateCount + 1 })
            (c.vueScanUpdateCount + 1) c.el (times 0) (sounds 0)).1.store.getRenderInfo
              (resolveName c)).map (fun r => (r.componentName, r.updateCount))
          = some (resolveName c, c.vueScanUpdateCount + (0 + 1))
        rw [hact.1, hname, VueScanStore.getRenderInfo_setRenderInfo_self]
        rfl
      · rw [← hname, ih4 hn]
        congr 1
        show (resolveName { c with vueScanUpdateCount := c.vueScanUpdateCount + 1 },
            c.vueScanUpdateCount + 1 + n)
          = (resolveName { c with vueScanUpdateCount := c.vueScanUpdateCount + 1 },
            c.vueScanUpdateCount + (n + 1))
        congr 1
        omega

/-- C1: on an active pipeline, mounting a freshly created instance stores a
record with `updateCount = 0` for its resolved identity (whatever records
other identities already have), and after `n` subsequent update cycles on
that same instance with no intervening mount the stored record for that
identity has `updateCount = n`. -/
theorem C1_mount_zero_then_n_updates (p : PluginState) (dn ifn : Option String)
    (el : Option Rect) (now0 : Nat) (a0 : Bool) (n : Nat)
    (times : Nat → Nat) (sounds : Nat → Bool)
    (hp : p.paused = false) (ht : p.store.optionsGet.trackUpdates = true) :
    (((mountEvent (ComponentInstance.create dn ifn el) p now0 a0).2.1.store.getRenderInfo
          (resolveName (ComponentInstance.create dn ifn el))).map
        (fun r => (r.componentName, r.updateCount))
      = some (resolveName (ComponentInstance.create dn ifn el), 0))
    ∧ (((runUpdates n (mountEvent (ComponentInstance.create dn ifn el) p now0 a0).1
            (mountEvent (ComponentInstance.create dn ifn el) p now0 a0).2.1
            times sounds).2.store.getRenderInfo
          (resolveName (ComponentInstance.create dn ifn el))).map
        (fun r => (r.componentName, r.updateCount))
      = some (resolveName (ComponentInstance.create dn ifn el), n)) := by
  have hact := fireRender_active_spec p (resolveName (ComponentInstance.create dn ifn el))
    0 (ComponentInstance.create dn ifn el).el now0 a0 hp ht
  have hpres := fireRender_preserves p (resolveName (ComponentInstance.create dn ifn el))
    0 (ComponentInstance.create dn ifn el).el now0 a0
  have hstore : (fireRender p (resolveName (ComponentInstance.create dn ifn el))
      0 (ComponentInstance.create dn ifn el).el now0 a0).1.store.getRenderInfo
        (resolveName (ComponentInstance.create dn ifn el))
      = some { componentName := resolveName (ComponentInstance.create dn ifn el),
               changes := getChangesStub, updateCount := 0, timestamp := now0 } := by
    rw [hact.1]; exact VueScanStore.getRenderInfo_setRenderInfo_self _ _ _
  have hp1 : (fireRender p (resolveName (ComponentInstance.create dn ifn el))
      0 (ComponentInstance.create dn ifn el).el now0 a0).1.paused = false := by
    rw [hpres.1]; exact hp
  have ht1 : (fireRender p (resolveName (ComponentInstance.create dn ifn el))
      0 (ComponentInstance.create dn ifn el).el now0 a0).1.store.optionsGet.trackUpdates
      = true := by
    show (fireRender p _ _ _ _ _).1.store._options.trackUpdates = true
    rw [hpres.2.1]; exact ht
  constructor
  · show ((fireRender p (resolveName (ComponentInstance.create dn ifn el))
        0 (ComponentInstance.create dn ifn el).el now0 a0).1.store.getRenderInfo
          (resolveName (ComponentInstance.create dn ifn el))).map
        (fun r => (r.componentName, r.updateCount))
      = some (resolveName (ComponentInstance.create dn ifn el), 0)
    rw [hstore]; rfl
  · rcases Nat.eq_zero_or_pos n with hn | hn
    · subst hn
      show ((fireRender p (resolveName (ComponentInstance.create dn ifn el))
          0 (ComponentInstance.create dn ifn el).el now0 a0).1.store.getRenderInfo
            (resolveName (ComponentInstance.create dn ifn el))).map
          (fun r => (r.componentName, r.updateCount))
        = some (resolveName (ComponentInstance.create dn ifn el), 0)
      rw [hstore]; rfl
    · have hrun := runUpdates_spec n (ComponentInstance.create dn ifn el)
        ((fireRender p (resolveName (ComponentInstance.create dn ifn el))
          0 (ComponentInstance.create dn ifn el).el now0 a0).1)
        times sounds hp1 ht1
      have h4 := hrun.2.2.2 hn
      show ((runUpdates n (ComponentInstance.create dn ifn el)
          (fireRender p (resolveName (ComponentInstance.create dn ifn el))
            0 (ComponentInstance.create dn ifn el).el now0 a0).1
          times sounds).2.store.getRenderInfo
            (resolveName (ComponentInstance.create dn ifn el))).map
          (fun r => (r.componentName, r.updateCount))
        = some (resolveName (ComponentInstance.create dn ifn el), n)
      simpa [ComponentInstance.create] using h4

/-- C4: at an animation frame at time `now`, a shape enqueued at `startTime`
with fade duration `fadeDuration` is drawn with opacity exactly
`1 - elapsed / fadeDuration` — a value in `(0, 1]` — while
`elapsed < fadeDuration`, and once `elapsed ≥ fadeDuration` it is removed
from the active shape set without being drawn. -/
theorem C4_shape_fade_invariant (o : OverlayManager) (s : OverlayShape) (now : Nat)
    (hctx : o.ctxAvailable = true) (hs : s ∈ o.shapes) (hT : s.startTime ≤ now) :
    (now - s.startTime < s.fadeDuration →
      processShape now s
          = some { shape := s,
                   alpha := 1 - ((now - s.startTime : Nat) : Rat) / (s.fadeDuration : Rat) }
        ∧ 0 < 1 - ((now - s.startTime : Nat) : Rat) / (s.fadeDuration : Rat)
        ∧ 1 - ((now - s.startTime : Nat) : Rat) / (s.fadeDuration : Rat) ≤ 1
        ∧ ({ shape := s,
             alpha := 1 - ((now - s.startTime : Nat) : Rat) / (s.fadeDuration : Rat) } :
              DrawCall)
            ∈ (o.renderLoop now).2)
    ∧ (s.fadeDuration ≤ now - s.startTime →
        processShape now s = none
        ∧ s ∉ (o.renderLoop now).1.shapes
        ∧ ∀ d ∈ (o.renderLoop now).2, d.shape ≠ s) := by
  obtain ⟨hsnd, hfst⟩ := renderLoop_components o now hctx
  constructor
  · intro hlt
    have hD : 0 < s.fadeDuration := lt_of_le_of_lt (Nat.zero_le _) hlt
    have hcond : ¬ ((s.fadeDuration : Int) ≤ (now : Int) - (s.startTime : Int)) := by
      omega
    have hcast : (((now : Int) - (s.startTime : Int) : Int) : Rat)
        = ((now - s.startTime : Nat) : Rat) := by
      push_cast [Nat.cast_sub hT]
      ring
    have hproc : processShape now s
        = some { shape := s,
                 alpha := 1 - ((now - s.startTime : Nat) : Rat) / (s.fadeDuration : Rat) } := by
      simp only [processShape]
      rw [if_neg hcond, hcast]
    have he0 : (0 : Rat) ≤ ((now - s.startTime : Nat) : Rat) := Nat.cast_nonneg _
    have heD : ((now - s.startTime : Nat) : Rat) < (s.fadeDuration : Rat) := by
      exact_mod_cast hlt
    have hDpos : (0 : Rat) < (s.fadeDuration : Rat) := by exact_mod_cast hD
    refine ⟨hproc, ?_, ?_, ?_⟩
    · have := (div_lt_one hDpos).mpr heD
      linarith
    · have := div_nonneg he0 hDpos.le
      linarith
    · rw [hsnd]
      exact List.mem_filterMap.mpr ⟨s, hs, hproc⟩
  · intro hge
    have hcond : (s.fadeDuration : Int) ≤ (now : Int) - (s.startTime : Int) := by
      omega
    have hproc : processShape now s = none := by
      simp only [processShape]
      rw [if_pos hcond]
    refine ⟨hproc, ?_, ?_⟩
    · rw [hfst]
      simp [List.mem_filter, hproc]
    · intro d hd heq
      obtain ⟨x, hx, hxd⟩ := List.mem_filterMap.mp (hsnd ▸ hd)
      have hdx := processShape_shape_eq now x d hxd
      rw [hdx] at heq
      rw [heq, hproc] at hxd
      exact Option.noConfusion hxd

/-! ## Witnesses: each hypothesis-bearing claim theorem applied at a concrete input -/

/-- Witness for C1: default plugin, a named instance, 3 update cycles. -/
theorem C1_witness :
    (mkPlugin {} true).paused = false
    ∧ (mkPlugin {} true).store.optionsGet.trackUpdates = true
    ∧ ((((mountEvent (ComponentInstance.create (some "Widget") none none)
            (mkPlugin {} true) 10 true).2.1.store.getRenderInfo
          (resolveName (ComponentInstance.create (some "Widget") none none))).map
          (fun r => (r.componentName, r.updateCount))
        = some (resolveName (ComponentInstance.create (some "Widget") none none), 0))
      ∧ (((runUpdates 3
              (mountEvent (ComponentInstance.create (some "Widget") none none)
                (mkPlugin {} true) 10 true).1
              (mountEvent (ComponentInstance.create (some "Widget") none none)
                (mkPlugin {} true) 10 true).2.1
              (fun i => 20 + i) (fun _ => true)).2.store.getRenderInfo
            (resolveName (ComponentInstance.create (some "Widget") none none))).map
          (fun r => (r.componentName, r.updateCount))
        = some (resolveName (ComponentInstance.create (some "Widget") none none), 3))) :=
  ⟨rfl, rfl,
    C1_mount_zero_then_n_updates (mkPlugin {} true) (some "Widget") none none 10 true 3
      (fun i => 20 + i) (fun _ => true) rfl rfl⟩

/-- Witness for C3: default plugin, pause swallows an event, resume restores. -/
theorem C3_witness :
    (mkPlugin {} true).store.optionsGet.trackUpdates = true
    ∧ (fireRender (setPaused (mkPlugin {} true) true) "A" 2 none 5 true
        = (setPaused (mkPlugin {} true) true, [], none)
      ∧ (fireRender (setPaused (setPaused (mkPlugin {} true) true) false) "A" 2 none
            6 true).1.store.getRenderInfo "A"
          = some { componentName := "A", changes := getChangesStub, updateCount := 2,
                   timestamp := 6 }
      ∧ ((mkPlugin {} true).instrReporter.options.log = true →
          RenderEffect.logLine
              { componentName := "A", changes := getChangesStub, updateCount := 2,
                timestamp := 6 }
            ∈ (fireRender (setPaused (setPaused (mkPlugin {} true) true) false) "A" 2 none
                6 true).2.1)
      ∧ ((mkPlugin {} true).instrReporter.options.playSound = true →
          RenderEffect.soundStarted
            ∈ (fireRender (setPaused (setPaused (mkPlugin {} true) true) false) "A" 2 none
                6 true).2.1)
      ∧ (∀ ov r, (mkPlugin {} true).overlay = some ov → (none : Option Rect) = some r →
          RenderEffect.overlayDrew r.left r.top r.width r.height
            ∈ (fireRender (setPaused (setPaused (mkPlugin {} true) true) false) "A" 2 none
                6 true).2.1)) :=
  ⟨rfl, C3_pause_blocks_and_resume_restores (mkPlugin {} true) "A" 2 none 5 6 true rfl⟩

/-- Concrete shape for the C4 witness: enqueued at 100 ms with the default
500 ms fade. -/
def shapeW4 : OverlayShape :=
  { x := 0, y := 0, width := 10, height := 10, color := "c",
    borderColor := some "b", borderWidth := some 1, fadeDuration := 500, startTime := 100 }

/-- Concrete overlay state for the C4 witness. -/
def overlayW4 : OverlayManager :=
  { ctxAvailable := true, shapes := [shapeW4], animationFrameId := true, canvasClean := false }

/-- Witness for C4: the frame at 350 ms draws the shape at opacity 1/2. -/
theorem C4_witness :
    overlayW4.ctxAvailable = true
    ∧ shapeW4 ∈ overlayW4.shapes
    ∧ shapeW4.startTime ≤ 350
    ∧ ((350 - shapeW4.startTime < shapeW4.fadeDuration →
        processShape 350 shapeW4
            = some { shape := shapeW4,
                     alpha := 1 - ((350 - shapeW4.startTime : Nat) : Rat)
                        / (shapeW4.fadeDuration : Rat) }
          ∧ 0 < 1 - ((350 - shapeW4.startTime : Nat) : Rat) / (shapeW4.fadeDuration : Rat)
          ∧ 1 - ((350 - shapeW4.startTime : Nat) : Rat) / (shapeW4.fadeDuration : Rat) ≤ 1
          ∧ ({ shape := shapeW4,
               alpha := 1 - ((350 - shapeW4.startTime : Nat) : Rat)
                  / (shapeW4.fadeDuration : Rat) } : DrawCall)
              ∈ (overlayW4.renderLoop 350).2)
      ∧ (shapeW4.fadeDuration ≤ 350 - shapeW4.startTime →
          processShape 350 shapeW4 = none
          ∧ shapeW4 ∉ (overlayW4.renderLoop 350).1.shapes
          ∧ ∀ d ∈ (overlayW4.renderLoop 350).2, d.shape ≠ shapeW4)) :=
  ⟨rfl, by decide, by decide,
    C4_shape_fade_invariant overlayW4 shapeW4 350 rfl (by decide) (by decide)⟩

/-- Concrete overlay state for the C6 witness: a scheduled frame and a dirty
surface. -/
def overlayW6 : OverlayManager :=
  { ctxAvailable := true, shapes := [], animationFrameId := true, canvasClean := false }

/-- Witness for C6. -/
theorem C6_witness :
    overlayW6.ctxAvailable = true
    ∧ ((overlayW6.clear).shapes = []
      ∧ (overlayW6.clear).animationFrameId = false
      ∧ (overlayW6.clear).canvasClean = true
      ∧ (overlayW6.clear).clear = overlayW6.clear
      ∧ ((overlayW6.clear).drawRect
          { x := 1, y := 2, width := 3, height := 4 } 9).animationFrameId = true) :=
  ⟨rfl,
    C6_clear_resets_and_idempotent overlayW6
      { x := 1, y := 2, width := 3, height := 4 } 9 rfl⟩

/-- Witness for C7: default plugin, event with no geometry. -/
theorem C7_witness :
    (mkPlugin {} true).paused = false
    ∧ (mkPlugin {} true).store.optionsGet.trackUpdates = true
    ∧ ((fireRender (mkPlugin {} true) "B" 1 none 4 true).1.store.getRenderInfo "B"
          = some { componentName := "B", changes := getChangesStub, updateCount := 1,
                   timestamp := 4 }
      ∧ (fireRender (mkPlugin {} true) "B" 1 none 4 true).1.store
          = (fireRender (mkPlugin {} true) "B" 1
              (some { left := 1, top := 1, width := 2, height := 2 }) 4 true).1.store
      ∧ ((mkPlugin {} true).instrReporter.options.log = true →
          RenderEffect.logLine
              { componentName := "B", changes := getChangesStub, updateCount := 1,
                timestamp := 4 }
            ∈ (fireRender (mkPlugin {} true) "B" 1 none 4 true).2.1)
      ∧ ((mkPlugin {} true).instrReporter.options.playSound = true → true = true →
          RenderEffect.soundStarted ∈ (fireRender (mkPlugin {} true) "B" 1 none 4 true).2.1)
      ∧ (∀ x y w h, RenderEffect.overlayDrew x y w h
          ∉ (fireRender (mkPlugin {} true) "B" 1 none 4 true).2.1)
      ∧ RenderEffect.overlayCleared ∉ (fireRender (mkPlugin {} true) "B" 1 none 4 true).2.1) :=
  ⟨rfl, rfl,
    C7_no_geometry_still_stored_and_reported (mkPlugin {} true) "B" 1 4 true
      { left := 1, top := 1, width := 2, height := 2 } rfl rfl⟩

/-- Witness for C9: plugin constructed with `trackUpdates: false`, then
re-enabled through `updateOptions`. -/
theorem C9_witness :
    (mkPlugin { trackUpdates := some false } true).store.optionsGet.trackUpdates = false
    ∧ (mkPlugin { trackUpdates := some false } true).paused = false
    ∧ (fireRender (mkPlugin { trackUpdates := some false } true) "D" 0 none 1 true
        = (mkPlugin { trackUpdates := some false } true, [], none)
      ∧ (updateOptions (mkPlugin { trackUpdates := some false } true)
          { trackUpdates := some true }).store.optionsGet.trackUpdates = true
      ∧ (fireRender (updateOptions (mkPlugin { trackUpdates := some false } true)
            { trackUpdates := some true }) "D" 0 none 2 true).1.store.getRenderInfo "D"
          = some { componentName := "D", changes := getChangesStub, updateCount := 0,
                   timestamp := 2 }
      ∧ ((mkPlugin { trackUpdates := some false } true).instrReporter.options.log = true →
          RenderEffect.logLine
              { componentName := "D", changes := getChangesStub, updateCount := 0,
                timestamp := 2 }
            ∈ (fireRender (updateOptions (mkPlugin { trackUpdates := some false } true)
                { trackUpdates := some true }) "D" 0 none 2 true).2.1)) :=
  ⟨rfl, rfl,
    C9_trackUpdates_gates_each_event (mkPlugin { trackUpdates := some false } true) "D" 0
      none 1 2 true rfl rfl⟩

/-- Witness for C10: default plugin (no overlay), runtime `showOverlay` flip. -/
theorem C10_witness :
    (mkPlugin {} true).overlay = none
    ∧ (((mkPlugin {} true).overlay.isSome
        = ((mergeOptions defaultOptions {}).enabled
            && (mergeOptions defaultOptions {}).showOverlay))
      ∧ (updateOptions (mkPlugin {} true) { showOverlay := some true }).overlay
          = (mkPlugin {} true).overlay
      ∧ highlightRect (mkPlugin {} true) 0 1 2 3 0 = mkPlugin {} true) :=
  ⟨rfl,
    C10_overlay_fixed_at_construction {} { showOverlay := some true } true
      (mkPlugin {} true) 0 1 2 3 0 rfl⟩
